import Mathlib

/-!
Shallow embedding of `src/index.js`: a request router with three
orchestration handlers (Analyze, Generate, Transform) that call an external
inference gateway (classifier, text generator, image synthesizer), compose
prompts from style templates, and shape HTTP responses.

The gateway is modelled as a record of oracle functions returning
`Except String _` (a thrown error carries its message). Each handler
returns the HTTP response it produces together with the list of gateway
calls it made, in order, so that properties about which calls happen and
with which arguments can be stated.
-/

namespace ImageWorker

/-- One entry of the classifier output: an object with a label and a score. -/
structure LabelScore where
  label : String
  score : Float

/-- An uploaded file; only its byte content is used by the worker
(via `arrayBuffer` / `Uint8Array`). -/
structure ImageFile where
  bytes : List Nat

/-- The multipart form body as the worker reads it: `formData.get` yields
`null` (here `none`) for an absent field. -/
structure FormData where
  image : Option ImageFile
  prompt : Option String
  style : Option String

/-- The parsed JSON body of the Generate endpoint; a field absent from the
JSON object destructures to `undefined` (here `none`). -/
structure JsonBody where
  prompt : Option String
  style : Option String

/-- The body of an HTTP response produced by the worker. The static HTML
payload served at the root is presentation-only and carried opaquely. -/
inductive Body where
  | empty
  | html
  | image (bytes : List Nat)
  | jsonError (error : String) (details : Option String)
  | jsonAnalysis (analysis : List LabelScore) (description : String)
      (promptSuggestion : String)
  | jsonCapabilities (message : String) (endpoints : List String)

/-- An HTTP response: status, headers (in insertion order), body. -/
structure HResponse where
  status : Nat
  headers : List (String × String)
  body : Body

/-- A record of one `env.AI.run` call, with the model and the input fields
the worker passes. -/
inductive Call where
  | resnet (image : List Nat)
  | phi2 (content : String) (maxTokens : Nat)
  | sdxl (prompt : String) (numSteps : Nat)

/-- The inference gateway: one oracle per model the worker invokes.
A `.error` value models the call throwing with that message. -/
structure AI where
  resnet : List Nat → Except String (List LabelScore)
  phi2 : String → Nat → Except String (Option String)
  sdxl : String → Nat → Except String (List Nat)

/-- JavaScript `x || y` where `x` is a possibly absent string: `null`,
`undefined` and `""` are falsy. -/
def jsOr (x : Option String) (y : String) : String :=
  match x with
  | none => y
  | some s => if s = "" then y else s

/-- The fixed CORS header set built at the top of `fetch`. -/
def corsHeaders : List (String × String) :=
  [("Access-Control-Allow-Origin", "*"),
   ("Access-Control-Allow-Methods", "GET, POST, OPTIONS"),
   ("Access-Control-Allow-Headers", "Content-Type")]

/-- `Response.json(body, {status, headers})`: the given headers plus the
JSON content type. -/
def jsonResponse (b : Body) (status : Nat) (headers : List (String × String)) :
    HResponse :=
  { status := status
    headers := headers ++ [("Content-Type", "application/json")]
    body := b }

/-- `analysis.slice(0, 3).map(item => item.label).join(', ')`. -/
def topLabels (analysis : List LabelScore) : String :=
  String.intercalate ", " ((analysis.take 3).map LabelScore.label)

/-- The prompt content sent to the text-generation model by the Analyze
handler. -/
def analyzeContent (tl : String) : String :=
  "Describe this image in detail for AI image generation. The image contains: "
    ++ tl ++
    ". Provide a comprehensive description including objects, colors, style, lighting, and composition."

/-- The Analyze handler (`analyzeImage` in the source). `parsed` is the
outcome of `await request.formData()`; a `.error` models that parse throwing
inside the handler's try block. -/
def analyzeImage (env : AI) (parsed : Except String FormData)
    (headers : List (String × String)) : HResponse × List Call :=
  match parsed with
  | .error e =>
    (jsonResponse (.jsonError "Image analysis failed" (some e)) 500 headers, [])
  | .ok formData =>
    match formData.image with
    | none =>
      (jsonResponse (.jsonError "No image provided" none) 400 headers, [])
    | some imageFile =>
      let imageUint8 := imageFile.bytes
      match env.resnet imageUint8 with
      | .error e =>
        (jsonResponse (.jsonError "Image analysis failed" (some e)) 500 headers,
         [.resnet imageUint8])
      | .ok analysis =>
        let tl := topLabels analysis
        let content := analyzeContent tl
        match env.phi2 content 200 with
        | .error e =>
          (jsonResponse (.jsonError "Image analysis failed" (some e)) 500 headers,
           [.resnet imageUint8, .phi2 content 200])
        | .ok resp =>
          let description := jsOr resp ("An image featuring " ++ tl)
          (jsonResponse
            (.jsonAnalysis analysis description
              ("Create a new image: " ++ description)) 200 headers,
           [.resnet imageUint8, .phi2 content 200])

/-- The `realistic` entry of the Generate handler's style-template object. -/
def generateRealistic (p : String) : String :=
  "photorealistic " ++ p ++ ", high detail, 4k"

/-- The Generate handler's `stylePrompts` object literal, in source order. -/
def generateStylePrompts (p : String) : List (String × String) :=
  [("realistic", generateRealistic p),
   ("artistic", "artistic painting of " ++ p ++ ", creative, masterpiece"),
   ("cartoon", "cartoon style " ++ p ++ ", animated, colorful"),
   ("abstract", "abstract interpretation of " ++ p ++ ", modern art")]

/-- A value read off a plain-object property: either an own data property
(here always a template string) or a member inherited from
`Object.prototype` — a built-in function, or the prototype object itself
for the `__proto__` accessor. Every inherited member is truthy. -/
inductive PropValue where
  | str (s : String)
  | protoMember (name : String)

/-- The property names a plain object literal inherits from
`Object.prototype` and therefore reachable by string indexing even though
they are not own keys of the literal. -/
def objectPrototypeKeys : List String :=
  ["constructor", "hasOwnProperty", "isPrototypeOf", "propertyIsEnumerable",
   "toLocaleString", "toString", "valueOf", "__defineGetter__",
   "__defineSetter__", "__lookupGetter__", "__lookupSetter__", "__proto__"]

/-- JavaScript property read `obj[key]` on an object literal with own
entries `own`: own keys first, then the `Object.prototype` chain, else
`undefined` (`none`). -/
def getProp (own : List (String × String)) (key : String) : Option PropValue :=
  match own.lookup key with
  | some s => some (.str s)
  | none =>
    if key ∈ objectPrototypeKeys then some (.protoMember key) else none

/-- Template-literal stringification of a looked-up value, as V8 (the
Workers runtime) prints it: an own entry is the string itself; an inherited
built-in function prints as `function name() \x7b [native code] \x7d` (the
`constructor` entry is the `Object` function and prints under that name);
the `__proto__` accessor yields the prototype object, which prints as
`[object Object]`. -/
def PropValue.interp : PropValue → String
  | .str s => s
  | .protoMember name =>
    if name = "constructor" then "function Object() \x7b [native code] \x7d"
    else if name = "__proto__" then "[object Object]"
    else "function " ++ name ++ "() \x7b [native code] \x7d"

/-- `stylePrompts[style] || stylePrompts.realistic` in the Generate
handler, interpolated into the prompt template: the property read consults
the prototype chain, and every value it can produce (own template string or
inherited member) is truthy, so `||` falls back to the `realistic` entry
exactly when the read yields `undefined`. -/
def generateFinalPrompt (style p : String) : String :=
  ((getProp (generateStylePrompts p) style).getD
    (.str (generateRealistic p))).interp

/-- The prompt string actually sent to the image-synthesis model:
`` `${finalPrompt} timestamp:${Date.now()}` ``. -/
def sdxlPrompt (finalPrompt : String) (now : Nat) : String :=
  finalPrompt ++ " timestamp:" ++ Nat.repr now

/-- The Generate handler (`generateImage` in the source). `parsed` is the
outcome of `await request.json()`; `now` is `Date.now()`. -/
def generateImage (env : AI) (now : Nat) (parsed : Except String JsonBody)
    (headers : List (String × String)) : HResponse × List Call :=
  match parsed with
  | .error e =>
    (jsonResponse (.jsonError "Image generation failed" (some e)) 500 headers, [])
  | .ok body =>
    match body.prompt with
    | none =>
      (jsonResponse (.jsonError "Prompt is required" none) 400 headers, [])
    | some p =>
      if p = "" then
        (jsonResponse (.jsonError "Prompt is required" none) 400 headers, [])
      else
        let style := body.style.getD "realistic"
        let finalPrompt := generateFinalPrompt style p
        let sent := sdxlPrompt finalPrompt now
        match env.sdxl sent 20 with
        | .error e =>
          (jsonResponse (.jsonError "Image generation failed" (some e)) 500 headers,
           [.sdxl sent 20])
        | .ok img =>
          ({ status := 200
             headers := headers ++ [("Content-Type", "image/png")]
             body := .image img },
           [.sdxl sent 20])

/-- The `realistic` entry of the Transform handler's style-template object. -/
def transformRealistic (p : String) : String :=
  "photorealistic " ++ p ++ ", high detail"

/-- The Transform handler's `stylePrompts` object literal, in source order. -/
def transformStylePrompts (p : String) : List (String × String) :=
  [("realistic", transformRealistic p),
   ("artistic", "artistic " ++ p ++ ", painting style"),
   ("cartoon", "cartoon " ++ p ++ ", animated style"),
   ("abstract", "abstract " ++ p ++ ", modern art")]

/-- `stylePrompts[style] || stylePrompts.realistic` in the Transform
handler, with the same prototype-chain property-read semantics as the
Generate handler's lookup. -/
def transformStyledPrompt (style p : String) : String :=
  ((getProp (transformStylePrompts p) style).getD
    (.str (transformRealistic p))).interp

/-- The prompt content sent to the text-generation model by the Transform
handler, with the optional custom-instruction clause. -/
def transformContent (tl custom : String) : String :=
  "Describe this image for AI generation. Content: " ++ tl ++ ". " ++
    (if custom ≠ "" then "Also: " ++ custom else "")

/-- `customPrompt ? baseDescription + ". " + customPrompt : baseDescription`. -/
def transformFinalPrompt (base custom : String) : String :=
  if custom ≠ "" then base ++ ". " ++ custom else base

/-- The Transform handler (`transformImage` in the source). -/
def transformImage (env : AI) (now : Nat) (parsed : Except String FormData)
    (headers : List (String × String)) : HResponse × List Call :=
  match parsed with
  | .error e =>
    (jsonResponse (.jsonError "Image transformation failed" (some e)) 500 headers, [])
  | .ok formData =>
    let customPrompt := jsOr formData.prompt ""
    let style := jsOr formData.style "realistic"
    match formData.image with
    | none =>
      (jsonResponse (.jsonError "No image provided" none) 400 headers, [])
    | some imageFile =>
      let imageUint8 := imageFile.bytes
      match env.resnet imageUint8 with
      | .error e =>
        (jsonResponse (.jsonError "Image transformation failed" (some e)) 500 headers,
         [.resnet imageUint8])
      | .ok analysis =>
        let tl := topLabels analysis
        let content := transformContent tl customPrompt
        match env.phi2 content 150 with
        | .error e =>
          (jsonResponse (.jsonError "Image transformation failed" (some e)) 500 headers,
           [.resnet imageUint8, .phi2 content 150])
        | .ok resp =>
          let baseDescription := jsOr resp ("An image with " ++ tl)
          let finalPrompt := transformFinalPrompt baseDescription customPrompt
          let styledPrompt := transformStyledPrompt style finalPrompt
          let sent := sdxlPrompt styledPrompt now
          match env.sdxl sent 20 with
          | .error e =>
            (jsonResponse (.jsonError "Image transformation failed" (some e)) 500 headers,
             [.resnet imageUint8, .phi2 content 150, .sdxl sent 20])
          | .ok img =>
            ({ status := 200
               headers := headers ++ [("Content-Type", "image/png")]
               body := .image img },
             [.resnet imageUint8, .phi2 content 150, .sdxl sent 20])

/-- The endpoint list of the default capability-listing response. -/
def capabilityEndpoints : List String :=
  ["GET  / - HTML UI",
   "POST /api/analyze-image - Analyze image to text",
   "POST /api/generate-image - Generate image from text",
   "POST /api/transform-image - Complete workflow"]

/-- The router (`fetch` in the source). `formDataResult` and `jsonResult`
are what parsing the request body as a multipart form or as JSON would
yield, consumed by whichever handler the router dispatches to. -/
def fetch (env : AI) (now : Nat) (method path : String)
    (formDataResult : Except String FormData)
    (jsonResult : Except String JsonBody) : HResponse × List Call :=
  if method = "OPTIONS" then
    ({ status := 200, headers := corsHeaders, body := .empty }, [])
  else if path = "/" ∧ method = "GET" then
    ({ status := 200
       headers := corsHeaders ++ [("Content-Type", "text/html")]
       body := .html }, [])
  else if path = "/api/analyze-image" ∧ method = "POST" then
    analyzeImage env formDataResult corsHeaders
  else if path = "/api/generate-image" ∧ method = "POST" then
    generateImage env now jsonResult corsHeaders
  else if path = "/api/transform-image" ∧ method = "POST" then
    transformImage env now formDataResult corsHeaders
  else
    ({ status := 200
       headers := corsHeaders ++ [("Content-Type", "application/json")]
       body := .jsonCapabilities "AI Image Transformer API" capabilityEndpoints }, [])

/-- Decimal digits of `n`, most significant first: a structural-recursion
reformulation of `Nat.toDigitsCore` at base 10, used to reason about the
`Nat.repr` call hidden in the timestamp interpolation. -/
def digitsRec (n : Nat) : List Char :=
  if _ : n < 10 then [Nat.digitChar n]
  else digitsRec (n / 10) ++ [Nat.digitChar (n % 10)]
decreasing_by exact Nat.div_lt_self (by omega) (by omega)

/-- Concrete classifier output used in several test instantiations. -/
def demoAnalysis : List LabelScore :=
  [⟨"cat", 0.9⟩, ⟨"dog", 0.5⟩, ⟨"tree", 0.3⟩, ⟨"sky", 0.1⟩]

/-- A gateway whose every model call throws. -/
def envAllFail : AI :=
  { resnet := fun _ => .error "resnet down"
    phi2 := fun _ _ => .error "phi2 down"
    sdxl := fun _ _ => .error "sdxl down" }

/-- A gateway whose every model call succeeds with fixed output. -/
def envAllOk : AI :=
  { resnet := fun _ => .ok demoAnalysis
    phi2 := fun _ _ => .ok (some "A sunny meadow")
    sdxl := fun _ _ => .ok [137, 80, 78, 71] }

theorem digitsRec_lt (n : Nat) (h : n < 10) : digitsRec n = [Nat.digitChar n] := by
  rw [digitsRec, dif_pos h]

theorem digitsRec_ge (n : Nat) (h : ¬ n < 10) :
    digitsRec n = digitsRec (n / 10) ++ [Nat.digitChar (n % 10)] := by
  rw [digitsRec, dif_neg h]

theorem digitsRec_ne_nil (n : Nat) : digitsRec n ≠ [] := by
  rw [digitsRec]
  split <;> simp

theorem toDigitsCore_eq_digitsRec (f n : Nat) (acc : List Char) (h : n < f) :
    Nat.toDigitsCore 10 f n acc = digitsRec n ++ acc := by
  induction f generalizing n acc with
  | zero => omega
  | succ f ih =>
    rw [Nat.toDigitsCore]
    by_cases h10 : n / 10 = 0
    · rw [if_pos h10, digitsRec_lt n (by omega)]
      have hmod : n % 10 = n := by omega
      rw [hmod]
      rfl
    · rw [if_neg h10, digitsRec_ge n (by omega), List.append_assoc,
        ih (n / 10) _ (by omega)]
      rfl

theorem repr_eq_digitsRec (n : Nat) : Nat.repr n = (digitsRec n).asString := by
  show (Nat.toDigitsCore 10 (n + 1) n []).asString = _
  rw [toDigitsCore_eq_digitsRec (n + 1) n [] (by omega), List.append_nil]

theorem digitChar_inj (a b : Nat) (ha : a < 10) (hb : b < 10)
    (h : Nat.digitChar a = Nat.digitChar b) : a = b := by
  interval_cases a <;> interval_cases b <;> revert h <;> decide

theorem digitsRec_inj (n : Nat) : ∀ m, digitsRec n = digitsRec m → n = m := by
  induction n using Nat.strong_induction_on with
  | _ n ih =>
    intro m h
    by_cases hn : n < 10 <;> by_cases hm : m < 10
    · rw [digitsRec_lt n hn, digitsRec_lt m hm] at h
      exact digitChar_inj n m hn hm (List.cons_eq_cons.mp h).1
    · rw [digitsRec_lt n hn, digitsRec_ge m hm] at h
      have hlen := congrArg List.length h
      simp at hlen
      exact absurd hlen (digitsRec_ne_nil _)
    · rw [digitsRec_ge n hn, digitsRec_lt m hm] at h
      have hlen := congrArg List.length h
      simp at hlen
      exact absurd hlen (digitsRec_ne_nil _)
    · rw [digitsRec_ge n hn, digitsRec_ge m hm] at h
      obtain ⟨h1, h2⟩ := List.append_inj' h rfl
      have hd : n % 10 = m % 10 :=
        digitChar_inj _ _ (by omega) (by omega) (List.cons_eq_cons.mp h2).1
      have hq : n / 10 = m / 10 :=
        ih (n / 10) (Nat.div_lt_self (by omega) (by omega)) (m / 10) h1
      omega

theorem nat_repr_data_inj (a b : Nat)
    (h : (Nat.repr a).data = (Nat.repr b).data) : a = b := by
  rw [repr_eq_digitsRec, repr_eq_digitsRec] at h
  exact digitsRec_inj a b h

/-- Distinct timestamps yield distinct prompt strings for the same base
prompt. -/
theorem sdxlPrompt_ne_of_now_ne (p : String) (t1 t2 : Nat) (h : t1 ≠ t2) :
    sdxlPrompt p t1 ≠ sdxlPrompt p t2 := by
  intro heq
  apply h
  apply nat_repr_data_inj
  have hd := congrArg String.data heq
  simp only [sdxlPrompt, String.data_append, List.append_assoc] at hd
  exact List.append_cancel_left (List.append_cancel_left hd)

/-- C1: the claim fails on the code. A style input inherited from
`Object.prototype`, such as `toString`, is outside the four template names
and is reachable client input, yet the object lookup returns the truthy
inherited member, so `||` never falls back and both handlers compose a
prompt different from the `realistic` one — the stringified built-in
function. The spec's stated invariant (unknown styles silently degrade to
`realistic`) is the evident intent, so the code is the slip. This theorem
evaluates both composers and the Generate handler's synthesis call at the
failing input. -/
theorem c1_prototype_key_breaks_realistic_fallback :
    generateFinalPrompt "toString" "a cat" =
      "function toString() \x7b [native code] \x7d" ∧
    generateFinalPrompt "toString" "a cat" ≠
      generateFinalPrompt "realistic" "a cat" ∧
    transformStyledPrompt "toString" "a cat" ≠
      transformStyledPrompt "realistic" "a cat" ∧
    (generateImage envAllOk 7 (.ok ⟨some "a cat", some "toString"⟩) []).snd =
      [.sdxl (sdxlPrompt "function toString() \x7b [native code] \x7d" 7) 20] :=
  ⟨by decide, by decide, by decide, rfl⟩

/-- C4: the Transform handler's final prompt before style templating is the
base description unchanged when the custom prompt is empty, and
`base ++ ". " ++ custom` when it is non-empty; in particular base
`A forest scene` with custom `add mountains` yields
`A forest scene. add mountains`. -/
theorem c4_transform_final_prompt (b c : String) :
    transformFinalPrompt b "" = b ∧
    (c ≠ "" → transformFinalPrompt b c = b ++ ". " ++ c) ∧
    transformFinalPrompt "A forest scene" "add mountains" =
      "A forest scene. add mountains" := by
  refine ⟨by simp [transformFinalPrompt], fun h => by simp [transformFinalPrompt, h], by decide⟩

/-- Witness for C4 at a concrete base and custom prompt. -/
theorem c4_witness :
    transformFinalPrompt "A forest scene" "" = "A forest scene" ∧
    transformFinalPrompt "A forest scene" "add mountains" =
      "A forest scene. add mountains" :=
  ⟨(c4_transform_final_prompt "A forest scene" "x").1,
   (c4_transform_final_prompt "A forest scene" "add mountains").2.1 (by decide)⟩

/-- C5: `topLabels` depends only on the first three classifier entries, in
their original order, joined with comma-space; on the example list it
evaluates to `cat, dog, tree`. -/
theorem c5_topLabels_first_three_in_order (x y z : LabelScore)
    (rest : List LabelScore) :
    topLabels (x :: y :: z :: rest) = topLabels [x, y, z] ∧
    topLabels (x :: y :: z :: rest) =
      x.label ++ ", " ++ y.label ++ ", " ++ z.label ∧
    topLabels demoAnalysis = "cat, dog, tree" := by
  refine ⟨by simp [topLabels], ?_, by rfl⟩
  simp [topLabels, String.intercalate, String.intercalate.go]

/-- C3: a request missing its required client input — Analyze or Transform
with no `image` form field, Generate with an absent or empty `prompt` —
gets HTTP 400 with a JSON `error` body, and the handler makes no inference
gateway call (its call trace is empty). -/
theorem c3_missing_input_400_no_gateway_call (env : AI) (now : Nat)
    (hdrs : List (String × String)) :
    (∀ fd : FormData, fd.image = none →
      analyzeImage env (.ok fd) hdrs =
        (jsonResponse (.jsonError "No image provided" none) 400 hdrs, [])) ∧
    (∀ jb : JsonBody, jb.prompt = none ∨ jb.prompt = some "" →
      generateImage env now (.ok jb) hdrs =
        (jsonResponse (.jsonError "Prompt is required" none) 400 hdrs, [])) ∧
    (∀ fd : FormData, fd.image = none →
      transformImage env now (.ok fd) hdrs =
        (jsonResponse (.jsonError "No image provided" none) 400 hdrs, [])) := by
  refine ⟨fun fd h => ?_, fun jb h => ?_, fun fd h => ?_⟩
  · simp [analyzeImage, h]
  · rcases h with h | h <;> simp [generateImage, h]
  · simp [transformImage, h]

/-- Witness for C3 at concrete empty request bodies. -/
theorem c3_witness :
    analyzeImage envAllOk (.ok ⟨none, none, none⟩) [] =
      (jsonResponse (.jsonError "No image provided" none) 400 [], []) ∧
    generateImage envAllOk 0 (.ok ⟨some "", none⟩) [] =
      (jsonResponse (.jsonError "Prompt is required" none) 400 [], []) ∧
    transformImage envAllOk 0 (.ok ⟨none, some "add mountains", some "cartoon"⟩) [] =
      (jsonResponse (.jsonError "No image provided" none) 400 [], []) :=
  ⟨(c3_missing_input_400_no_gateway_call envAllOk 0 []).1 _ rfl,
   (c3_missing_input_400_no_gateway_call envAllOk 0 []).2.1 _ (Or.inr rfl),
   (c3_missing_input_400_no_gateway_call envAllOk 0 []).2.2 _ rfl⟩

/-- C10: a request body that cannot be parsed at all (invalid JSON for
Generate, a non-multipart body for Analyze or Transform) is caught by the
handler's catch-all block before the missing-input check, so the handler
returns the HTTP 500 gateway-failure envelope, not a 400 client error. -/
theorem c10_unparseable_body_yields_500 (env : AI) (now : Nat)
    (hdrs : List (String × String)) (e : String) :
    analyzeImage env (.error e) hdrs =
      (jsonResponse (.jsonError "Image analysis failed" (some e)) 500 hdrs, []) ∧
    generateImage env now (.error e) hdrs =
      (jsonResponse (.jsonError "Image generation failed" (some e)) 500 hdrs, []) ∧
    transformImage env now (.error e) hdrs =
      (jsonResponse (.jsonError "Image transformation failed" (some e)) 500 hdrs, []) :=
  ⟨rfl, rfl, rfl⟩

/-- C2: whatever pipeline step throws — body parsing, the classifier call,
the text-generation call, or the image-synthesis call — each handler
returns the single JSON error envelope with HTTP 500, its fixed
handler-specific `error` string and the thrown message as `details`, and
never an image body. -/
theorem c2_pipeline_error_single_500_envelope (env : AI) (now : Nat)
    (hdrs : List (String × String)) :
    (∀ e, analyzeImage env (.error e) hdrs =
      (jsonResponse (.jsonError "Image analysis failed" (some e)) 500 hdrs, [])) ∧
    (∀ (fd : FormData) file e, fd.image = some file →
      env.resnet file.bytes = .error e →
      analyzeImage env (.ok fd) hdrs =
        (jsonResponse (.jsonError "Image analysis failed" (some e)) 500 hdrs,
         [.resnet file.bytes])) ∧
    (∀ (fd : FormData) file analysis e, fd.image = some file →
      env.resnet file.bytes = .ok analysis →
      env.phi2 (analyzeContent (topLabels analysis)) 200 = .error e →
      analyzeImage env (.ok fd) hdrs =
        (jsonResponse (.jsonError "Image analysis failed" (some e)) 500 hdrs,
         [.resnet file.bytes, .phi2 (analyzeContent (topLabels analysis)) 200])) ∧
    (∀ e, generateImage env now (.error e) hdrs =
      (jsonResponse (.jsonError "Image generation failed" (some e)) 500 hdrs, [])) ∧
    (∀ (jb : JsonBody) p e, jb.prompt = some p → p ≠ "" →
      env.sdxl (sdxlPrompt (generateFinalPrompt (jb.style.getD "realistic") p) now) 20 =
        .error e →
      generateImage env now (.ok jb) hdrs =
        (jsonResponse (.jsonError "Image generation failed" (some e)) 500 hdrs,
         [.sdxl (sdxlPrompt (generateFinalPrompt (jb.style.getD "realistic") p) now) 20])) ∧
    (∀ e, transformImage env now (.error e) hdrs =
      (jsonResponse (.jsonError "Image transformation failed" (some e)) 500 hdrs, [])) ∧
    (∀ (fd : FormData) file e, fd.image = some file →
      env.resnet file.bytes = .error e →
      transformImage env now (.ok fd) hdrs =
        (jsonResponse (.jsonError "Image transformation failed" (some e)) 500 hdrs,
         [.resnet file.bytes])) ∧
    (∀ (fd : FormData) file analysis e, fd.image = some file →
      env.resnet file.bytes = .ok analysis →
      env.phi2 (transformContent (topLabels analysis) (jsOr fd.prompt "")) 150 =
        .error e →
      transformImage env now (.ok fd) hdrs =
        (jsonResponse (.jsonError "Image transformation failed" (some e)) 500 hdrs,
         [.resnet file.bytes,
          .phi2 (transformContent (topLabels analysis) (jsOr fd.prompt "")) 150])) ∧
    (∀ (fd : FormData) file analysis resp e, fd.image = some file →
      env.resnet file.bytes = .ok analysis →
      env.phi2 (transformContent (topLabels analysis) (jsOr fd.prompt "")) 150 =
        .ok resp →
      env.sdxl
        (sdxlPrompt
          (transformStyledPrompt (jsOr fd.style "realistic")
            (transformFinalPrompt (jsOr resp ("An image with " ++ topLabels analysis))
              (jsOr fd.prompt ""))) now) 20 = .error e →
      transformImage env now (.ok fd) hdrs =
        (jsonResponse (.jsonError "Image transformation failed" (some e)) 500 hdrs,
         [.resnet file.bytes,
          .phi2 (transformContent (topLabels analysis) (jsOr fd.prompt "")) 150,
          .sdxl
            (sdxlPrompt
              (transformStyledPrompt (jsOr fd.style "realistic")
                (transformFinalPrompt
                  (jsOr resp ("An image with " ++ topLabels analysis))
                  (jsOr fd.prompt ""))) now) 20])) := by
  refine ⟨fun e => rfl, ?_, ?_, fun e => rfl, ?_, fun e => rfl, ?_, ?_, ?_⟩
  · intro fd file e himg hres
    simp [analyzeImage, himg, hres]
  · intro fd file analysis e himg hres hphi
    simp [analyzeImage, himg, hres, hphi]
  · intro jb p e hp hp' hsd
    simp [generateImage, hp, hp', hsd]
  · intro fd file e himg hres
    simp [transformImage, himg, hres]
  · intro fd file analysis e himg hres hphi
    simp [transformImage, himg, hres, hphi]
  · intro fd file analysis resp e himg hres hphi hsd
    simp [transformImage, himg, hres, hphi, hsd]

/-- Witness for C2: a failing classifier in Analyze and a failing
synthesizer in Transform, at concrete requests. -/
theorem c2_witness :
    analyzeImage envAllFail (.ok ⟨some ⟨[1, 2, 3]⟩, none, none⟩) [] =
      (jsonResponse (.jsonError "Image analysis failed" (some "resnet down")) 500 [],
       [.resnet [1, 2, 3]]) ∧
    generateImage { envAllOk with sdxl := fun _ _ => .error "sdxl down" } 7
        (.ok ⟨some "a cat", none⟩) [] =
      (jsonResponse (.jsonError "Image generation failed" (some "sdxl down")) 500 [],
       [.sdxl (sdxlPrompt (generateFinalPrompt "realistic" "a cat") 7) 20]) :=
  ⟨(c2_pipeline_error_single_500_envelope envAllFail 0 []).2.1
      ⟨some ⟨[1, 2, 3]⟩, none, none⟩ ⟨[1, 2, 3]⟩ "resnet down" rfl rfl,
   (c2_pipeline_error_single_500_envelope
      { envAllOk with sdxl := fun _ _ => .error "sdxl down" } 7 []).2.2.2.2.1
      ⟨some "a cat", none⟩ "a cat" "sdxl down" rfl (by decide) rfl⟩

/-- C6: in Analyze and Transform the description is the text-generation
output when that output is non-empty (`jsOr` models the `||` fallback),
otherwise the fallback built from `topLabels`; the chosen description flows
unchanged into Analyze's JSON response and into Transform's final prompt
sent to the synthesizer. -/
theorem c6_description_fallback_used_downstream (env : AI) (now : Nat)
    (hdrs : List (String × String)) :
    (∀ s fb : String, s ≠ "" → jsOr (some s) fb = s) ∧
    (∀ fb : String, jsOr (some "") fb = fb) ∧
    (∀ fb : String, jsOr none fb = fb) ∧
    (∀ (fd : FormData) file analysis resp, fd.image = some file →
      env.resnet file.bytes = .ok analysis →
      env.phi2 (analyzeContent (topLabels analysis)) 200 = .ok resp →
      (analyzeImage env (.ok fd) hdrs).fst =
        jsonResponse
          (.jsonAnalysis analysis
            (jsOr resp ("An image featuring " ++ topLabels analysis))
            ("Create a new image: " ++
              jsOr resp ("An image featuring " ++ topLabels analysis))) 200 hdrs) ∧
    (∀ (fd : FormData) file analysis resp, fd.image = some file →
      env.resnet file.bytes = .ok analysis →
      env.phi2 (transformContent (topLabels analysis) (jsOr fd.prompt "")) 150 =
        .ok resp →
      (transformImage env now (.ok fd) hdrs).snd =
        [.resnet file.bytes,
         .phi2 (transformContent (topLabels analysis) (jsOr fd.prompt "")) 150,
         .sdxl
           (sdxlPrompt
             (transformStyledPrompt (jsOr fd.style "realistic")
               (transformFinalPrompt
                 (jsOr resp ("An image with " ++ topLabels analysis))
                 (jsOr fd.prompt ""))) now) 20]) := by
  refine ⟨fun s fb h => by simp [jsOr, h], fun fb => rfl, fun fb => rfl, ?_, ?_⟩
  · intro fd file analysis resp himg hres hphi
    simp [analyzeImage, himg, hres, hphi]
  · intro fd file analysis resp himg hres hphi
    rcases hsd : env.sdxl
        (sdxlPrompt
          (transformStyledPrompt (jsOr fd.style "realistic")
            (transformFinalPrompt (jsOr resp ("An image with " ++ topLabels analysis))
              (jsOr fd.prompt ""))) now) 20 with e | img <;>
      simp [transformImage, himg, hres, hphi, hsd]

/-- Witness for C6: a non-empty generation output is used verbatim in the
Analyze response at a concrete request. -/
theorem c6_witness :
    (analyzeImage envAllOk (.ok ⟨some ⟨[1, 2, 3]⟩, none, none⟩) []).fst =
      jsonResponse
        (.jsonAnalysis demoAnalysis
          (jsOr (some "A sunny meadow") ("An image featuring " ++ topLabels demoAnalysis))
          ("Create a new image: " ++
            jsOr (some "A sunny meadow")
              ("An image featuring " ++ topLabels demoAnalysis))) 200 [] :=
  (c6_description_fallback_used_downstream envAllOk 0 []).2.2.2.1
    ⟨some ⟨[1, 2, 3]⟩, none, none⟩ ⟨[1, 2, 3]⟩ demoAnalysis (some "A sunny meadow")
    rfl rfl rfl

/-- C9: every image-synthesis call carries the composed styled prompt with
the current-timestamp suffix appended and the fixed diffusion step count 20,
and for a fixed styled prompt two distinct timestamps produce distinct
prompt strings. -/
theorem c9_synthesis_prompt_suffix_and_steps (env : AI) (now : Nat)
    (hdrs : List (String × String)) :
    (∀ (jb : JsonBody) p, jb.prompt = some p → p ≠ "" →
      (generateImage env now (.ok jb) hdrs).snd =
        [.sdxl (sdxlPrompt (generateFinalPrompt (jb.style.getD "realistic") p) now) 20]) ∧
    (∀ (fd : FormData) file analysis resp, fd.image = some file →
      env.resnet file.bytes = .ok analysis →
      env.phi2 (transformContent (topLabels analysis) (jsOr fd.prompt "")) 150 =
        .ok resp →
      (transformImage env now (.ok fd) hdrs).snd =
        [.resnet file.bytes,
         .phi2 (transformContent (topLabels analysis) (jsOr fd.prompt "")) 150,
         .sdxl
           (sdxlPrompt
             (transformStyledPrompt (jsOr fd.style "realistic")
               (transformFinalPrompt
                 (jsOr resp ("An image with " ++ topLabels analysis))
                 (jsOr fd.prompt ""))) now) 20]) ∧
    (∀ (p : String) (t1 t2 : Nat), t1 ≠ t2 → sdxlPrompt p t1 ≠ sdxlPrompt p t2) := by
  refine ⟨?_, ?_, sdxlPrompt_ne_of_now_ne⟩
  · intro jb p hp hp'
    rcases hsd : env.sdxl
        (sdxlPrompt (generateFinalPrompt (jb.style.getD "realistic") p) now) 20
      with e | img <;> simp [generateImage, hp, hp', hsd]
  · intro fd file analysis resp himg hres hphi
    rcases hsd : env.sdxl
        (sdxlPrompt
          (transformStyledPrompt (jsOr fd.style "realistic")
            (transformFinalPrompt (jsOr resp ("An image with " ++ topLabels analysis))
              (jsOr fd.prompt ""))) now) 20 with e | img <;>
      simp [transformImage, himg, hres, hphi, hsd]

/-- Witness for C9: the concrete Generate call trace at timestamp 7, and
distinctness of the prompts sent at timestamps 1 and 2. -/
theorem c9_witness :
    (generateImage envAllOk 7 (.ok ⟨some "a cat", some "cartoon"⟩) []).snd =
      [.sdxl (sdxlPrompt (generateFinalPrompt "cartoon" "a cat") 7) 20] ∧
    sdxlPrompt "photorealistic a cat, high detail, 4k" 1 ≠
      sdxlPrompt "photorealistic a cat, high detail, 4k" 2 :=
  ⟨(c9_synthesis_prompt_suffix_and_steps envAllOk 7 []).1
      ⟨some "a cat", some "cartoon"⟩ "a cat" rfl (by decide),
   (c9_synthesis_prompt_suffix_and_steps envAllOk 7 []).2.2
      "photorealistic a cat, high detail, 4k" 1 2 (by decide)⟩

theorem analyzeImage_headers_ext (env : AI) (parsed : Except String FormData)
    (hdrs : List (String × String)) :
    ∃ rest, (analyzeImage env parsed hdrs).fst.headers = hdrs ++ rest := by
  rcases parsed with e | fd
  · exact ⟨[("Content-Type", "application/json")], rfl⟩
  rcases h1 : fd.image with _ | file
  · exact ⟨[("Content-Type", "application/json")],
      by simp [analyzeImage, h1, jsonResponse]⟩
  rcases h2 : env.resnet file.bytes with e | analysis
  · exact ⟨[("Content-Type", "application/json")],
      by simp [analyzeImage, h1, h2, jsonResponse]⟩
  rcases h3 : env.phi2 (analyzeContent (topLabels analysis)) 200 with e | resp
  · exact ⟨[("Content-Type", "application/json")],
      by simp [analyzeImage, h1, h2, h3, jsonResponse]⟩
  · exact ⟨[("Content-Type", "application/json")],
      by simp [analyzeImage, h1, h2, h3, jsonResponse]⟩

theorem generateImage_headers_ext (env : AI) (now : Nat)
    (parsed : Except String JsonBody) (hdrs : List (String × String)) :
    ∃ rest, (generateImage env now parsed hdrs).fst.headers = hdrs ++ rest := by
  rcases parsed with e | jb
  · exact ⟨[("Content-Type", "application/json")], rfl⟩
  rcases h1 : jb.prompt with _ | p
  · exact ⟨[("Content-Type", "application/json")],
      by simp [generateImage, h1, jsonResponse]⟩
  by_cases h2 : p = ""
  · exact ⟨[("Content-Type", "application/json")],
      by simp [generateImage, h1, h2, jsonResponse]⟩
  rcases h3 : env.sdxl
      (sdxlPrompt (generateFinalPrompt (jb.style.getD "realistic") p) now) 20
    with e | img
  · exact ⟨[("Content-Type", "application/json")],
      by simp [generateImage, h1, h2, h3, jsonResponse]⟩
  · exact ⟨[("Content-Type", "image/png")],
      by simp [generateImage, h1, h2, h3]⟩

theorem transformImage_headers_ext (env : AI) (now : Nat)
    (parsed : Except String FormData) (hdrs : List (String × String)) :
    ∃ rest, (transformImage env now parsed hdrs).fst.headers = hdrs ++ rest := by
  rcases parsed with e | fd
  · exact ⟨[("Content-Type", "application/json")], rfl⟩
  rcases h1 : fd.image with _ | file
  · exact ⟨[("Content-Type", "application/json")],
      by simp [transformImage, h1, jsonResponse]⟩
  rcases h2 : env.resnet file.bytes with e | analysis
  · exact ⟨[("Content-Type", "application/json")],
      by simp [transformImage, h1, h2, jsonResponse]⟩
  rcases h3 : env.phi2 (transformContent (topLabels analysis) (jsOr fd.prompt "")) 150
    with e | resp
  · exact ⟨[("Content-Type", "application/json")],
      by simp [transformImage, h1, h2, h3, jsonResponse]⟩
  rcases h4 : env.sdxl
      (sdxlPrompt
        (transformStyledPrompt (jsOr fd.style "realistic")
          (transformFinalPrompt (jsOr resp ("An image with " ++ topLabels analysis))
            (jsOr fd.prompt ""))) now) 20 with e | img
  · exact ⟨[("Content-Type", "application/json")],
      by simp [transformImage, h1, h2, h3, h4, jsonResponse]⟩
  · exact ⟨[("Content-Type", "image/png")],
      by simp [transformImage, h1, h2, h3, h4]⟩

/-- C8: every response the router produces — success, 400 and 500 alike —
carries the fixed CORS header set as a prefix, merged with the response's
own headers. -/
theorem c8_cors_headers_on_every_response (env : AI) (now : Nat)
    (method path : String) (fdr : Except String FormData)
    (jr : Except String JsonBody) :
    ∃ rest, (fetch env now method path fdr jr).fst.headers = corsHeaders ++ rest := by
  unfold fetch
  split
  · exact ⟨[], (List.append_nil _).symm⟩
  · split
    · exact ⟨[("Content-Type", "text/html")], rfl⟩
    · split
      · exact analyzeImage_headers_ext env fdr corsHeaders
      · split
        · exact generateImage_headers_ext env now jr corsHeaders
        · split
          · exact transformImage_headers_ext env now fdr corsHeaders
          · exact ⟨[("Content-Type", "application/json")], rfl⟩

/-- C7: the router selects exactly one response per request by method and
path: OPTIONS gives an empty 200 with exactly the CORS headers, GET `/`
gives the HTML payload, POST to the three API paths dispatches to the
corresponding handler, and every other combination gets the 200 JSON
capability listing. -/
theorem c7_router_dispatch (env : AI) (now : Nat) (method path : String)
    (fdr : Except String FormData) (jr : Except String JsonBody) :
    (method = "OPTIONS" →
      fetch env now method path fdr jr =
        ({ status := 200, headers := corsHeaders, body := .empty }, [])) ∧
    (method = "GET" → path = "/" →
      fetch env now method path fdr jr =
        ({ status := 200
           headers := corsHeaders ++ [("Content-Type", "text/html")]
           body := .html }, [])) ∧
    (method = "POST" → path = "/api/analyze-image" →
      fetch env now method path fdr jr = analyzeImage env fdr corsHeaders) ∧
    (method = "POST" → path = "/api/generate-image" →
      fetch env now method path fdr jr = generateImage env now jr corsHeaders) ∧
    (method = "POST" → path = "/api/transform-image" →
      fetch env now method path fdr jr = transformImage env now fdr corsHeaders) ∧
    (method ≠ "OPTIONS" → ¬(path = "/" ∧ method = "GET") →
      ¬(path = "/api/analyze-image" ∧ method = "POST") →
      ¬(path = "/api/generate-image" ∧ method = "POST") →
      ¬(path = "/api/transform-image" ∧ method = "POST") →
      fetch env now method path fdr jr =
        ({ status := 200
           headers := corsHeaders ++ [("Content-Type", "application/json")]
           body := .jsonCapabilities "AI Image Transformer API" capabilityEndpoints },
         [])) := by
  refine ⟨?_, ?_, ?_, ?_, ?_, ?_⟩
  · intro hm
    subst hm
    simp [fetch]
  · intro hm hp
    subst hm
    subst hp
    simp [fetch]
  · intro hm hp
    subst hm
    subst hp
    simp [fetch]
  · intro hm hp
    subst hm
    subst hp
    simp [fetch]
  · intro hm hp
    subst hm
    subst hp
    simp [fetch]
  · intro hm h2 h3 h4 h5
    unfold fetch
    rw [if_neg hm, if_neg (fun hc => h2 ⟨hc.1, hc.2⟩),
      if_neg (fun hc => h3 ⟨hc.1, hc.2⟩), if_neg (fun hc => h4 ⟨hc.1, hc.2⟩),
      if_neg (fun hc => h5 ⟨hc.1, hc.2⟩)]

/-- Witness for C7 at concrete requests: a preflight, the root page, a
dispatch to Analyze, and an unmatched route. -/
theorem c7_witness :
    fetch envAllOk 0 "OPTIONS" "/api/generate-image" (.error "nf") (.error "nj") =
      ({ status := 200, headers := corsHeaders, body := .empty }, []) ∧
    fetch envAllOk 0 "GET" "/" (.error "nf") (.error "nj") =
      ({ status := 200
         headers := corsHeaders ++ [("Content-Type", "text/html")]
         body := .html }, []) ∧
    fetch envAllOk 0 "POST" "/api/analyze-image" (.ok ⟨none, none, none⟩)
        (.error "nj") =
      analyzeImage envAllOk (.ok ⟨none, none, none⟩) corsHeaders ∧
    fetch envAllOk 0 "GET" "/favicon.ico" (.error "nf") (.error "nj") =
      ({ status := 200
         headers := corsHeaders ++ [("Content-Type", "application/json")]
         body := .jsonCapabilities "AI Image Transformer API" capabilityEndpoints },
       []) :=
  ⟨(c7_router_dispatch envAllOk 0 "OPTIONS" "/api/generate-image"
      (.error "nf") (.error "nj")).1 rfl,
   (c7_router_dispatch envAllOk 0 "GET" "/" (.error "nf") (.error "nj")).2.1 rfl rfl,
   (c7_router_dispatch envAllOk 0 "POST" "/api/analyze-image"
      (.ok ⟨none, none, none⟩) (.error "nj")).2.2.1 rfl rfl,
   (c7_router_dispatch envAllOk 0 "GET" "/favicon.ico"
      (.error "nf") (.error "nj")).2.2.2.2.2 (by decide) (by decide) (by decide)
      (by decide) (by decide)⟩

end ImageWorker
